import Mathlib

/-!
Shallow embedding of `advanced_paris_assistant.py`: the geospatial utility
(`haversine_km`), the knowledge base (`ParisKB`), the intent classifier
(`IntentClassifier`), and the answer router (`ParisAssistant.answer`) with its
conversation state.  Python floats are modelled as real numbers (coordinate
literals are kept as exact decimal rationals), Python `Optional` as `Option`,
and the regular expressions of the pattern table by a small executable
matcher covering exactly the constructs those patterns use.
-/

namespace Paris

/-- Model of Python `str.lower()` on the ASCII fragment relevant to this
program: each character `A`–`Z` is mapped to its lowercase form, everything
else is unchanged (this is `Char.toLower`). -/
def lower (t : List Char) : List Char := t.map Char.toLower

/-- String-level lowering, used by `find` for case-insensitive comparison. -/
def lowerS (s : String) : String := ⟨lower s.data⟩

/-- Python regex `\w` (ASCII): letters, digits and underscore. -/
def isWordChar (c : Char) : Bool := c.isAlphanum || c = '_'

/-- Word boundary `\b` at position `i` of text `t`: a word character lies on
exactly one side of the position. -/
def boundaryAt (t : List Char) (i : Nat) : Bool :=
  ((decide (0 < i)) && isWordChar (t.getD (i - 1) ' '))
    != ((decide (i < t.length)) && isWordChar (t.getD i ' '))

/-- Regular-expression abstract syntax covering the constructs used by
`IntentClassifier.PATTERNS`: literal strings, `.*`, an optional character
class (`[- ]?`), word boundaries `\b`, concatenation and alternation `|`. -/
inductive Re where
  | lit (s : List Char)
  | anyStar
  | optCls (cs : List Char)
  | wb
  | cat (r1 r2 : Re)
  | alt (r1 r2 : Re)

/-- All positions at which a match of `r` starting at position `i` of `t` can
end (nondeterministic semantics; `re.search` succeeds iff some end exists). -/
def ends (t : List Char) : Re → Nat → List Nat
  | .lit s, i => if s.isPrefixOf (t.drop i) then [i + s.length] else []
  | .anyStar, i => (List.range (t.length + 1 - i)).map (fun k => i + k)
  | .optCls cs, i =>
      if cs.contains (t.getD i ' ') && decide (i < t.length) then [i, i + 1] else [i]
  | .wb, i => if boundaryAt t i then [i] else []
  | .cat r1 r2, i => ((ends t r1 i).map (fun j => ends t r2 j)).flatten
  | .alt r1 r2, i => ends t r1 i ++ ends t r2 i

/-- Model of Python `re.search(r, t)`: a match of `r` exists starting at some
position of `t`. -/
def search (r : Re) (t : List Char) : Bool :=
  (List.range (t.length + 1)).any (fun i => !(ends t r i).isEmpty)

/-- Literal pattern. -/
def reLit (s : String) : Re := .lit s.data

/-- Pattern `\bW\b` for a literal word `W`. -/
def wordRe (s : String) : Re := .cat .wb (.cat (reLit s) .wb)

/-- Patterns of the `distance` intent: `how far`, `distance`, `miles`,
`kilometers`. -/
def distancePats : List Re :=
  [reLit "how far", reLit "distance", reLit "miles", reLit "kilometers"]

/-- Patterns of the `where` intent: `where.*arc de triomphe`, `where.*eiffel`,
`where.*louvre`. -/
def wherePats : List Re :=
  [.cat (reLit "where") (.cat .anyStar (reLit "arc de triomphe")),
   .cat (reLit "where") (.cat .anyStar (reLit "eiffel")),
   .cat (reLit "where") (.cat .anyStar (reLit "louvre"))]

/-- Patterns of the `mustsee` intent: `must[- ]?see.*louvre`,
`what.*see.*louvre`, `top.*louvre`. -/
def mustseePats : List Re :=
  [.cat (reLit "must")
     (.cat (.optCls ['-', ' ']) (.cat (reLit "see") (.cat .anyStar (reLit "louvre")))),
   .cat (reLit "what") (.cat .anyStar (.cat (reLit "see") (.cat .anyStar (reLit "louvre")))),
   .cat (reLit "top") (.cat .anyStar (reLit "louvre"))]

/-- Pattern of the `greet` intent: `\bhi\b|\bhello\b|\bbonjour\b`. -/
def greetPats : List Re :=
  [.alt (wordRe "hi") (.alt (wordRe "hello") (wordRe "bonjour"))]

/-- The ordered pattern table `IntentClassifier.PATTERNS` (Python dicts keep
insertion order, so the table order is distance, where, mustsee, greet). -/
def PATTERNS : List (String × List Re) :=
  [("distance", distancePats), ("where", wherePats),
   ("mustsee", mustseePats), ("greet", greetPats)]

/-- Some pattern of the list matches the text (inner loop of `classify`). -/
def anyMatch (pats : List Re) (t : List Char) : Bool :=
  pats.any (fun r => search r t)

/-- Scan of the lowered text against the ordered table: result of the first
entry one of whose patterns matches, `"general"` otherwise. -/
def classifyL (t : List Char) : String :=
  match PATTERNS.find? (fun p => anyMatch p.2 t) with
  | some p => p.1
  | none => "general"

/-- `IntentClassifier.classify`: lower-case the input, then scan the table. -/
def classify (text : String) : String := classifyL (lower text.data)

/-- The `Location` dataclass.  Coordinates are the exact decimal values of the
source literals. -/
structure Location where
  name : String
  lat : ℚ
  lon : ℚ
  category : String
  description : String
  opening_hours : List (String × String)
  admission_eur : ℚ
  website : String
  address : String
  tags : List String
deriving DecidableEq

/-- The Eiffel Tower entry of `ParisKB`. -/
def eiffelLoc : Location :=
  ⟨"Eiffel Tower", 48.8584, 2.2945, "landmark",
   "Iconic iron lattice tower built in 1889.",
   [("daily", "09:30–23:45")], 28.3, "https://www.toureiffel.paris/",
   "Champ de Mars, 75007 Paris", ["landmark", "view", "must-see"]⟩

/-- The Louvre Museum entry of `ParisKB`. -/
def louvreLoc : Location :=
  ⟨"Louvre Museum", 48.8606, 2.3376, "museum",
   "World’s largest art museum and historic monument.",
   [("mon-sun", "09:00–18:00"), ("tuesday", "closed")], 17.0,
   "https://www.louvre.fr/", "Rue de Rivoli, 75001 Paris",
   ["museum", "art", "mona lisa"]⟩

/-- The Arc de Triomphe entry of `ParisKB`. -/
def arcLoc : Location :=
  ⟨"Arc de Triomphe", 48.8738, 2.2950, "landmark",
   "Triumphal arch honoring those who fought for France.",
   [("daily", "10:00–22:30")], 13.0, "https://www.paris-arc-de-triomphe.fr/",
   "Place Charles de Gaulle, 75008 Paris", ["monument"]⟩

/-- `ParisKB.locations`, populated at construction. -/
def locations : List Location := [eiffelLoc, louvreLoc, arcLoc]

/-- `ParisKB.find`: first stored location whose lowercased name equals the
lowercased argument. -/
def find (name : String) : Option Location :=
  locations.find? (fun loc => lowerS loc.name == lowerS name)

/-- Python `math.radians`. -/
noncomputable def radians (x : ℚ) : ℝ := (x : ℝ) * Real.pi / 180

/-- `haversine_km`: great-circle distance with Earth radius 6371 km. -/
noncomputable def haversine_km (a b : Location) : ℝ :=
  let dlat := radians (b.lat - a.lat)
  let dlon := radians (b.lon - a.lon)
  let la1 := radians a.lat
  let la2 := radians b.lat
  let h := Real.sin (dlat / 2) ^ 2 +
    Real.cos la1 * Real.cos la2 * Real.sin (dlon / 2) ^ 2
  2 * 6371 * Real.arcsin (Real.sqrt h)

/-- Scaled integer behind Python `f"{x:.2f}"` for the nonnegative values used
here (round to nearest; the half-even/half-up difference cannot arise at the
values this program formats, so round-half-up is used). -/
noncomputable def round2 (x : ℝ) : ℤ := ⌊x * 100 + 1 / 2⌋

/-- Python `f"{x:.2f}"` for the nonnegative values used here. -/
noncomputable def fmt2 (x : ℝ) : String :=
  let n := (round2 x).toNat
  Nat.repr (n / 100) ++ "." ++ (if n % 100 < 10 then "0" else "") ++ Nat.repr (n % 100)

/-- The part of `ParisKB.distance_report`'s sentence after the two location
names: kilometres, miles (factor 0.621371) and the two truncated travel-time
estimates (`int` truncation equals `⌊·⌋` on these nonnegative values). -/
noncomputable def numericTail (a b : Location) : String :=
  fmt2 (haversine_km a b) ++ " km (" ++ fmt2 (haversine_km a b * 0.621371) ++
  " miles). Walking ~" ++ toString ⌊haversine_km a b * 12⌋ ++
  " min, Metro ~" ++ toString ⌊haversine_km a b * 3 + 5⌋ ++ " min."

/-- The full sentence returned by `ParisKB.distance_report` on success. -/
noncomputable def reportString (a b : Location) : String :=
  a.name ++ " → " ++ b.name ++ ": " ++ numericTail a b

/-- `ParisKB.distance_report`: resolve both names, absent if either misses. -/
noncomputable def distance_report (a b : String) : Option String :=
  match find a, find b with
  | some A, some B => some (reportString A B)
  | _, _ => none

/-- One conversation message (Python `{"role": ..., "content": ...}`). -/
structure Msg where
  role : String
  content : String
deriving DecidableEq

/-- The system prompt seeded in `ParisAssistant.__init__`. -/
def sysPrompt : String :=
  "You are a concise Paris travel guide. Answer accurately and briefly."

/-- The conversation seeded in `ParisAssistant.__init__`: system prompt plus
one illustrative user/assistant exchange (three messages). -/
def convInit : List Msg :=
  [⟨"system", sysPrompt⟩,
   ⟨"user", "What is the most famous landmark in Paris?"⟩,
   ⟨"assistant", "The most famous landmark in Paris is the Eiffel Tower."⟩]

/-- Python substring test `needle in hay`. -/
def containsSub (needle hay : List Char) : Bool :=
  (List.range (hay.length + 1)).any (fun i => needle.isPrefixOf (hay.drop i))

/-- The fixed sentence returned on the `where` deterministic path. -/
def whereAnswer : String :=
  "The Arc de Triomphe is at Place Charles de Gaulle, western end of the Champs-Élysées."

/-- The fixed enumeration returned on the `mustsee` deterministic path. -/
def mustseeAnswer : String :=
  "Must-see works at the Louvre include: Mona Lisa, Winged Victory of Samothrace, Venus de Milo, The Coronation of Napoleon, and Liberty Leading the People."

/-- The three early-return paths of `ParisAssistant.answer`: the fixed-pair
distance report when the intent is `distance` (guarded by Python truthiness of
the report, i.e. non-`None` and non-empty), the Arc de Triomphe sentence when
the intent is `where` and the lowered question contains `arc de triomphe`,
and the Louvre list when the intent is `mustsee` and the lowered question
contains `louvre`.  `none` means control reaches the gateway fallback. -/
noncomputable def detAnswer (question : String) : Option String :=
  let intent := classify question
  let q := lower question.data
  let step2 :=
    if intent = "distance" then
      match distance_report "Louvre Museum" "Eiffel Tower" with
      | some r => if r = "" then none else some r
      | none => none
    else none
  match step2 with
  | some r => some r
  | none =>
    if intent = "where" ∧ containsSub "arc de triomphe".data q then some whereAnswer
    else if intent = "mustsee" ∧ containsSub "louvre".data q then some mustseeAnswer
    else none

/-- Observable outcome of one `answer` call: the returned text, the
conversation afterwards, and the list of arguments the gateway was invoked
with during the call. -/
structure AnswerResult where
  reply : String
  conv : List Msg
  gatewayCalls : List (List Msg)
deriving DecidableEq

/-- `ParisAssistant.answer` against gateway `gw` and conversation `conv`:
return a deterministic answer when one applies, otherwise append the user
message, invoke the gateway on the whole conversation, append and return its
reply. -/
noncomputable def answer (gw : List Msg → String) (conv : List Msg)
    (question : String) : AnswerResult :=
  match detAnswer question with
  | some r => ⟨r, conv, []⟩
  | none =>
    let conv1 := conv ++ [⟨"user", question⟩]
    let reply := gw conv1
    ⟨reply, conv1 ++ [⟨"assistant", reply⟩], [conv1]⟩

/-- A session: successive `answer` calls threading the conversation. -/
noncomputable def run (gw : List Msg → String) (conv : List Msg) :
    List String → List Msg
  | [] => conv
  | q :: qs => run gw (answer gw conv q).conv qs

/-- A concrete gateway used to instantiate universally quantified theorems. -/
def gw0 : List Msg → String := fun _ => "Paris has lovely weather in spring."

/-- Strictly alternating user/assistant pairs. -/
def alternatingUA : List Msg → Prop
  | [] => True
  | [_] => False
  | u :: a :: rest => u.role = "user" ∧ a.role = "assistant" ∧ alternatingUA rest

/-- A string starts with the given other string. -/
def strStarts (p s : String) : Prop := ∃ rest, s = p ++ rest

/-! Helper lemmas about the embedded definitions. -/

theorem data_append (s t : String) : (s ++ t).data = s.data ++ t.data := rfl

theorem toNat_ofNat_of_lt {n : Nat} (h : n < 55296) : (Char.ofNat n).toNat = n := by
  have hv : n.isValidChar := Or.inl h
  rw [Char.ofNat, dif_pos hv]
  rfl

theorem toLower_idem (c : Char) : c.toLower.toLower = c.toLower := by
  simp only [Char.toLower]
  by_cases h : c.toNat ≥ 65 ∧ c.toNat ≤ 90
  · rw [if_pos h]
    have h2 : (Char.ofNat (c.toNat + 32)).toNat = c.toNat + 32 :=
      toNat_ofNat_of_lt (by omega)
    have hcond : ¬((Char.ofNat (c.toNat + 32)).toNat ≥ 65 ∧
        (Char.ofNat (c.toNat + 32)).toNat ≤ 90) := by
      rw [h2]; omega
    rw [if_neg hcond]
  · rw [if_neg h, if_neg h]

theorem lower_idem (t : List Char) : lower (lower t) = lower t := by
  induction t with
  | nil => rfl
  | cons c cs ih =>
      simp only [lower, List.map_cons] at ih ⊢
      rw [toLower_idem]
      exact congrArg _ ih

theorem reportString_ne (a b : Location) : reportString a b ≠ "" := by
  intro h
  have h2 : (a.name ++ " → " ++ b.name ++ ": " ++ numericTail a b).data = [] :=
    congrArg String.data h
  rw [data_append, data_append, data_append, data_append] at h2
  rcases List.append_eq_nil.mp h2 with ⟨h3, -⟩
  rcases List.append_eq_nil.mp h3 with ⟨-, h4⟩
  exact absurd h4 (by decide)

theorem distance_report_fixed :
    distance_report "Louvre Museum" "Eiffel Tower" =
      some (reportString louvreLoc eiffelLoc) := rfl

theorem detAnswer_distance (q : String) (h : classify q = "distance") :
    detAnswer q = some (reportString louvreLoc eiffelLoc) := by
  simp only [detAnswer, h, if_pos, distance_report_fixed]
  rw [if_neg (reportString_ne louvreLoc eiffelLoc)]

theorem detAnswer_none (q : String) (h1 : classify q ≠ "distance")
    (h2 : classify q ≠ "where") (h3 : classify q ≠ "mustsee") :
    detAnswer q = none := by
  simp [detAnswer, h1, h2, h3]

theorem detAnswer_weather : detAnswer "What is the weather like today?" = none := by
  have h : classify "What is the weather like today?" = "general" := by decide
  exact detAnswer_none _ (by rw [h]; decide) (by rw [h]; decide) (by rw [h]; decide)

theorem answer_det (gw : List Msg → String) (conv : List Msg) (q r : String)
    (h : detAnswer q = some r) : answer gw conv q = ⟨r, conv, []⟩ := by
  simp [answer, h]

theorem answer_fb (gw : List Msg → String) (conv : List Msg) (q : String)
    (h : detAnswer q = none) :
    answer gw conv q =
      ⟨gw (conv ++ [⟨"user", q⟩]),
       conv ++ [⟨"user", q⟩, ⟨"assistant", gw (conv ++ [⟨"user", q⟩])⟩],
       [conv ++ [⟨"user", q⟩]]⟩ := by
  simp [answer, h]

theorem run_length (gw : List Msg → String) (qs : List String) (conv : List Msg) :
    (run gw conv qs).length =
      conv.length + 2 * qs.countP (fun q => (detAnswer q).isNone) := by
  induction qs generalizing conv with
  | nil => simp [run]
  | cons q qs ih =>
      simp only [run]
      rw [ih]
      rcases h : detAnswer q with _ | r
      · rw [answer_fb gw conv q h]
        simp [List.countP_cons, h]
        omega
      · rw [answer_det gw conv q r h]
        simp [List.countP_cons, h]

theorem alternatingUA_append {l2 : List Msg} :
    ∀ l1, alternatingUA l1 → alternatingUA l2 → alternatingUA (l1 ++ l2)
  | [], _, h2 => h2
  | _ :: _ :: rest, ⟨hu, ha, hr⟩, h2 => ⟨hu, ha, alternatingUA_append rest hr h2⟩
  | [_], h1, _ => absurd h1 (by simp [alternatingUA])

theorem alternatingUA_even : ∀ l, alternatingUA l → Even l.length
  | [], _ => ⟨0, rfl⟩
  | _ :: _ :: rest, ⟨_, _, hr⟩ => by
      rcases alternatingUA_even rest hr with ⟨k, hk⟩
      exact ⟨k + 1, by simp only [List.length_cons, hk]; omega⟩
  | [_], h => absurd h (by simp [alternatingUA])

theorem run_shape (gw : List Msg → String) (qs : List String) :
    ∀ conv rest0, conv = convInit ++ rest0 → alternatingUA rest0 →
      ∃ rest, run gw conv qs = convInit ++ rest ∧ alternatingUA rest := by
  induction qs with
  | nil => exact fun conv rest0 h hr => ⟨rest0, by simp [run, h], hr⟩
  | cons q qs ih =>
      intro conv rest0 h hr
      rcases hda : detAnswer q with _ | r
      · simp only [run]
        rw [answer_fb gw conv q hda]
        refine ih _ (rest0 ++ [⟨"user", q⟩,
          ⟨"assistant", gw (conv ++ [⟨"user", q⟩])⟩]) (by simp [h]) ?_
        exact alternatingUA_append rest0 hr ⟨rfl, rfl, trivial⟩
      · simp only [run]
        rw [answer_det gw conv q r hda]
        exact ih conv rest0 h hr

/-- C1 (amended): starting from a fresh session, after any sequence of calls of
which N take the fallback (gateway) path, the conversation length is `3 + 2 * N`
(one system message plus the two-message primer, plus two per fallback call);
calls that take a deterministic path leave the conversation unchanged. -/
theorem C1_conversation_length :
    (∀ (gw : List Msg → String) (qs : List String),
      (run gw convInit qs).length =
        3 + 2 * qs.countP (fun q => (detAnswer q).isNone)) ∧
    (∀ (gw : List Msg → String) (conv : List Msg) (q : String),
      (detAnswer q).isSome → (answer gw conv q).conv = conv) := by
  constructor
  · intro gw qs
    rw [run_length]
    rfl
  · intro gw conv q h
    rcases Option.isSome_iff_exists.mp h with ⟨r, hr⟩
    rw [answer_det gw conv q r hr]

/-- C1 counterexample: a fresh session with exactly one fallback call (N = 1)
has conversation length 5, not `2 + 2 * 1 = 4` as the claim states. -/
theorem C1_counterexample :
    (["What is the weather like today?"].countP
      (fun q => (detAnswer q).isNone)) = 1 ∧
    (run gw0 convInit ["What is the weather like today?"]).length = 5 ∧
    (5 : Nat) ≠ 2 + 2 * 1 := by
  refine ⟨?_, ?_, by decide⟩
  · simp [List.countP_cons, detAnswer_weather]
  · simp only [run]
    rw [answer_fb gw0 convInit _ detAnswer_weather]
    simp [convInit]

/-- C1 witness: a two-question session (one greet, one general question, both
fallback) reaches conversation length `3 + 2 * 2 = 7`, and a deterministic
(mustsee) call leaves the conversation unchanged. -/
theorem C1_conversation_length_witness :
    (run gw0 convInit ["Bonjour", "What is the weather like today?"]).length =
      3 + 2 * (["Bonjour", "What is the weather like today?"].countP
        (fun q => (detAnswer q).isNone)) ∧
    (detAnswer "top 10 louvre").isSome ∧
    (answer gw0 convInit "top 10 louvre").conv = convInit := by
  refine ⟨C1_conversation_length.1 gw0 _, ?_, ?_⟩
  · have h : classify "top 10 louvre" = "mustsee" := by decide
    simp [detAnswer, h]
    decide
  · apply C1_conversation_length.2 gw0 convInit
    have h : classify "top 10 louvre" = "mustsee" := by decide
    simp [detAnswer, h]
    decide

/-- C4: for every question on which no deterministic path applies (`detAnswer`
is `none`, covering the greet and general intents and failed substring
guards), `answer` appends exactly one user message with the raw question,
invokes the gateway exactly once with the entire current conversation, appends
the reply as one assistant message, and returns the reply unchanged. -/
theorem C4_fallback :
    ∀ (gw : List Msg → String) (conv : List Msg) (q : String),
      detAnswer q = none →
      answer gw conv q =
        ⟨gw (conv ++ [⟨"user", q⟩]),
         conv ++ [⟨"user", q⟩, ⟨"assistant", gw (conv ++ [⟨"user", q⟩])⟩],
         [conv ++ [⟨"user", q⟩]]⟩ :=
  fun gw conv q h => answer_fb gw conv q h

/-- C4 witness at the concrete general question of the spec's example. -/
theorem C4_fallback_witness :
    detAnswer "What is the weather like today?" = none ∧
    answer gw0 convInit "What is the weather like today?" =
      ⟨gw0 (convInit ++ [⟨"user", "What is the weather like today?"⟩]),
       convInit ++ [⟨"user", "What is the weather like today?"⟩,
         ⟨"assistant", gw0 (convInit ++ [⟨"user", "What is the weather like today?"⟩])⟩],
       [convInit ++ [⟨"user", "What is the weather like today?"⟩]]⟩ :=
  ⟨detAnswer_weather, C4_fallback gw0 convInit _ detAnswer_weather⟩

/-- C7: `classify` is total, returning one of the five fixed labels for every
input string (totality itself is inherent in it being a Lean function). -/
theorem C7_classify_total : ∀ text : String,
    classify text = "distance" ∨ classify text = "where" ∨
    classify text = "mustsee" ∨ classify text = "greet" ∨
    classify text = "general" := by
  intro text
  unfold classify classifyL
  rcases h : PATTERNS.find? (fun p => anyMatch p.2 (lower text.data)) with _ | p
  · rw [h]; simp
  · have hp := List.mem_of_find?_eq_some h
    rw [h]
    simp only [PATTERNS, List.mem_cons, List.not_mem_nil, or_false] at hp
    rcases hp with rfl | rfl | rfl | rfl <;> simp

/-- C8: every question classified as `distance` gets the fixed-pair report and
never reaches the gateway; the fixed-pair `distance_report` is never absent
because both names are always in the knowledge base, so the fall-through
after the distance branch cannot be taken by a distance-classified question. -/
theorem C8_distance_no_gateway :
    (distance_report "Louvre Museum" "Eiffel Tower").isSome = true ∧
    (∀ (gw : List Msg → String) (conv : List Msg) (q : String),
      classify q = "distance" →
      answer gw conv q = ⟨reportString louvreLoc eiffelLoc, conv, []⟩) := by
  constructor
  · rw [distance_report_fixed]; rfl
  · intro gw conv q h
    exact answer_det gw conv q _ (detAnswer_distance q h)

/-- C8 witness at a concrete distance-classified question. -/
theorem C8_distance_no_gateway_witness :
    classify "distance?" = "distance" ∧
    answer gw0 convInit "distance?" =
      ⟨reportString louvreLoc eiffelLoc, convInit, []⟩ :=
  ⟨by decide, C8_distance_no_gateway.2 gw0 convInit "distance?" (by decide)⟩

/-- C9: every reachable conversation starts with the seeded three-message
primer (so in particular with the fixed system message), continues with
strictly alternating user/assistant pairs, has odd length, and each `answer`
call either leaves the conversation unchanged or appends exactly one user
message immediately followed by one assistant message. -/
theorem C9_conversation_shape :
    ∀ (gw : List Msg → String) (qs : List String),
      ((run gw convInit qs).take 3 = convInit) ∧
      (∃ rest, run gw convInit qs = ⟨"system", sysPrompt⟩ :: rest ∧
        alternatingUA rest) ∧
      Odd (run gw convInit qs).length ∧
      (∀ (conv : List Msg) (q : String),
        (answer gw conv q).conv = conv ∨
        (answer gw conv q).conv =
          conv ++ [⟨"user", q⟩, ⟨"assistant", gw (conv ++ [⟨"user", q⟩])⟩]) := by
  intro gw qs
  obtain ⟨rest, hr, ha⟩ := run_shape gw qs convInit [] (by simp) trivial
  have hprimer : alternatingUA (convInit.drop 1 ++ rest) :=
    alternatingUA_append _ ⟨rfl, rfl, trivial⟩ ha
  refine ⟨?_, ⟨convInit.drop 1 ++ rest, ?_, hprimer⟩, ?_, ?_⟩
  · rw [hr]; rfl
  · rw [hr]; rfl
  · rcases alternatingUA_even _ hprimer with ⟨k, hk⟩
    refine ⟨k, ?_⟩
    rw [hr]
    simp only [List.length_append, List.length_drop] at hk ⊢
    simp [convInit] at hk ⊢
    omega
  · intro conv q
    rcases h : detAnswer q with _ | r
    · right; rw [answer_fb gw conv q h]
    · left; rw [answer_det gw conv q r h]

theorem lowerS_eq_iff (a b : String) :
    (lowerS a == lowerS b) = true ↔ lower a.data = lower b.data := by
  rw [beq_iff_eq]
  constructor
  · intro h; exact congrArg String.data h
  · intro h; exact congrArg String.mk h

/-- C6: `find` is a case-insensitive exact match over the stored names,
absent when no stored name matches, and `distance_report` is absent whenever
either argument fails to case-insensitively equal a stored name. -/
theorem C6_find_exact :
    (∀ name : String,
      (find name = none ↔
        ∀ loc ∈ locations, lower loc.name.data ≠ lower name.data) ∧
      (∀ loc, find name = some loc →
        loc ∈ locations ∧ lower loc.name.data = lower name.data)) ∧
    (∀ a b : String,
      ((∀ loc ∈ locations, lower loc.name.data ≠ lower a.data) ∨
       (∀ loc ∈ locations, lower loc.name.data ≠ lower b.data)) →
      distance_report a b = none) := by
  have hfind : ∀ name : String, find name = none ↔
      ∀ loc ∈ locations, lower loc.name.data ≠ lower name.data := by
    intro name
    rw [find, List.find?_eq_none]
    constructor
    · intro h loc hm heq
      exact absurd ((lowerS_eq_iff loc.name name).mpr heq) (by simpa using h loc hm)
    · intro h loc hm
      simp only [Bool.not_eq_true]
      rw [Bool.eq_false_iff]
      intro hb
      exact h loc hm ((lowerS_eq_iff loc.name name).mp hb)
  refine ⟨fun name => ⟨hfind name, ?_⟩, ?_⟩
  · intro loc h
    rw [find] at h
    refine ⟨List.mem_of_find?_eq_some h, ?_⟩
    have hp := List.find?_some h
    exact (lowerS_eq_iff loc.name name).mp hp
  · intro a b h
    rcases h with h | h
    · have hA : find a = none := (hfind a).mpr h
      simp [distance_report, hA]
    · have hB : find b = none := (hfind b).mpr h
      rcases hA : find a with _ | A
      · simp [distance_report, hA]
      · simp [distance_report, hA, hB]

/-- C6 witness: an unknown name misses `find` and makes the report absent. -/
theorem C6_find_exact_witness :
    find "Notre Dame" = none ∧
    distance_report "Notre Dame" "Eiffel Tower" = none := by
  have h : ∀ loc ∈ locations,
      lower loc.name.data ≠ lower ("Notre Dame" : String).data := by decide
  exact ⟨(C6_find_exact.1 "Notre Dame").1.mpr h,
    C6_find_exact.2 "Notre Dame" "Eiffel Tower" (Or.inl h)⟩

/-- C10: the classifier and the deterministic-path selection of `answer`
depend only on the lower-cased question, so the branch taken is invariant
under changes of letter case; moreover `classify` of a text equals `classify`
of its lower-cased form. -/
theorem C10_case_invariance :
    (∀ s t : String, lower s.data = lower t.data →
      classify s = classify t ∧ detAnswer s = detAnswer t) ∧
    (∀ s : String, classify s = classify (lowerS s)) := by
  constructor
  · intro s t h
    have hc : classify s = classify t := by unfold classify; rw [h]
    refine ⟨hc, ?_⟩
    unfold detAnswer
    rw [hc, h]
  · intro s
    unfold classify
    have h : (lowerS s).data = lower s.data := rfl
    rw [h, lower_idem]

/-- C10 witness: two casings of the same greeting classify identically and
select the same branch. -/
theorem C10_case_invariance_witness :
    lower "BONJOUR tout le monde".data = lower "bonjour TOUT le monde".data ∧
    classify "BONJOUR tout le monde" = classify "bonjour TOUT le monde" ∧
    detAnswer "BONJOUR tout le monde" = detAnswer "bonjour TOUT le monde" :=
  ⟨by decide, (C10_case_invariance.1 _ _ (by decide)).1,
   (C10_case_invariance.1 _ _ (by decide)).2⟩

/-- C3: `classify` lower-cases its input and scans the fixed table in order
distance, where, mustsee, greet, returning the first intent any of whose
patterns matches and `general` if none does; a text matching patterns of two
intents gets the one earlier in table order (witnessed by a text matching
both distance and where patterns). -/
theorem C3_classify_order :
    (∀ text : String,
      (classify text = "distance" ↔
        anyMatch distancePats (lower text.data) = true) ∧
      (classify text = "where" ↔
        (anyMatch distancePats (lower text.data) = false ∧
         anyMatch wherePats (lower text.data) = true)) ∧
      (classify text = "mustsee" ↔
        (anyMatch distancePats (lower text.data) = false ∧
         anyMatch wherePats (lower text.data) = false ∧
         anyMatch mustseePats (lower text.data) = true)) ∧
      (classify text = "greet" ↔
        (anyMatch distancePats (lower text.data) = false ∧
         anyMatch wherePats (lower text.data) = false ∧
         anyMatch mustseePats (lower text.data) = false ∧
         anyMatch greetPats (lower text.data) = true)) ∧
      (classify text = "general" ↔
        (anyMatch distancePats (lower text.data) = false ∧
         anyMatch wherePats (lower text.data) = false ∧
         anyMatch mustseePats (lower text.data) = false ∧
         anyMatch greetPats (lower text.data) = false))) ∧
    (classify "how far is it and where is the eiffel" = "distance" ∧
     anyMatch wherePats (lower "how far is it and where is the eiffel".data) = true) := by
  constructor
  · intro text
    have hcl : classify text = classifyL (lower text.data) := rfl
    rcases hd : anyMatch distancePats (lower text.data) <;>
      rcases hw : anyMatch wherePats (lower text.data) <;>
        rcases hm : anyMatch mustseePats (lower text.data) <;>
          rcases hg : anyMatch greetPats (lower text.data) <;>
            simp [hcl, classifyL, PATTERNS, List.find?, hd, hw, hm, hg]
  · exact ⟨by decide, by decide⟩

theorem haversine_km_symm (A B : Location) :
    haversine_km A B = haversine_km B A := by
  simp only [haversine_km, radians]
  have hlat : ((A.lat - B.lat : ℚ) : ℝ) = -((B.lat - A.lat : ℚ) : ℝ) := by
    push_cast; ring
  have hlon : ((A.lon - B.lon : ℚ) : ℝ) = -((B.lon - A.lon : ℚ) : ℝ) := by
    push_cast; ring
  rw [hlat, hlon]
  have e1 : ∀ x : ℝ,
      Real.sin (-x * Real.pi / 180 / 2) ^ 2 = Real.sin (x * Real.pi / 180 / 2) ^ 2 := by
    intro x
    rw [show -x * Real.pi / 180 / 2 = -(x * Real.pi / 180 / 2) by ring,
      Real.sin_neg, neg_sq]
  rw [e1, e1, mul_comm (Real.cos ((B.lat : ℝ) * Real.pi / 180))
    (Real.cos ((A.lat : ℝ) * Real.pi / 180))]

/-- C5: for stored locations resolved from any pair of names, the kilometre
quantity (hence the miles, walking and metro figures derived from it, i.e.
the whole numeric tail of the sentence) is symmetric in the two arguments;
swapping the arguments only swaps the two names around the arrow. -/
theorem C5_distance_symmetric :
    ∀ (a b : String) (A B : Location), find a = some A → find b = some B →
      haversine_km A B = haversine_km B A ∧
      distance_report a b =
        some (A.name ++ " → " ++ B.name ++ ": " ++ numericTail A B) ∧
      distance_report b a =
        some (B.name ++ " → " ++ A.name ++ ": " ++ numericTail B A) ∧
      numericTail A B = numericTail B A := by
  intro a b A B hA hB
  refine ⟨haversine_km_symm A B, ?_, ?_, ?_⟩
  · simp [distance_report, hA, hB, reportString]
  · simp [distance_report, hA, hB, reportString]
  · unfold numericTail
    rw [haversine_km_symm A B]

/-- C5 witness at the fixed Louvre/Eiffel pair. -/
theorem C5_distance_symmetric_witness :
    find "Louvre Museum" = some louvreLoc ∧
    find "Eiffel Tower" = some eiffelLoc ∧
    haversine_km louvreLoc eiffelLoc = haversine_km eiffelLoc louvreLoc ∧
    numericTail louvreLoc eiffelLoc = numericTail eiffelLoc louvreLoc :=
  ⟨rfl, rfl,
   (C5_distance_symmetric "Louvre Museum" "Eiffel Tower" louvreLoc eiffelLoc
      rfl rfl).1,
   (C5_distance_symmetric "Louvre Museum" "Eiffel Tower" louvreLoc eiffelLoc
      rfl rfl).2.2.2⟩

theorem sin_sq_bounds {x : ℝ} (h0 : 0 < x) (h1 : x ≤ 1) :
    (x - x ^ 3 / 4) ^ 2 ≤ Real.sin x ^ 2 ∧ Real.sin x ^ 2 ≤ x ^ 2 := by
  have hu := Real.sin_lt h0
  have hl := Real.sin_gt_sub_cube h0 h1
  have hx2 : x ^ 2 ≤ 1 := by nlinarith
  have hx3 : x ^ 3 ≤ x := by nlinarith
  have hnn : 0 ≤ x - x ^ 3 / 4 := by linarith
  have hs0 : 0 < Real.sin x := lt_of_le_of_lt hnn hl
  exact ⟨pow_le_pow_left hnn (le_of_lt hl) 2,
    pow_le_pow_left (le_of_lt hs0) (le_of_lt hu) 2⟩

theorem sin_sq_enclosure {x lo hi sl su : ℝ} (hx0 : 0 < x) (hx1 : x ≤ 1)
    (hlo : lo ≤ x) (hhi : x ≤ hi) (h0lo : 0 ≤ lo - hi ^ 3 / 4)
    (hsl : sl ≤ (lo - hi ^ 3 / 4) ^ 2) (hsu : hi ^ 2 ≤ su) :
    sl ≤ Real.sin x ^ 2 ∧ Real.sin x ^ 2 ≤ su := by
  obtain ⟨ha, hb⟩ := sin_sq_bounds hx0 hx1
  have hc3 : x ^ 3 ≤ hi ^ 3 := pow_le_pow_left (le_of_lt hx0) hhi 3
  have hm : lo - hi ^ 3 / 4 ≤ x - x ^ 3 / 4 := by linarith
  have hsq := pow_le_pow_left h0lo hm 2
  have hxsq : x ^ 2 ≤ hi ^ 2 := pow_le_pow_left (le_of_lt hx0) hhi 2
  exact ⟨by linarith, by linarith⟩

theorem arcsin_le_add_cube {y : ℝ} (h0 : 0 < y) (hy : y ≤ 1 / 1000) :
    y ≤ Real.arcsin y ∧ Real.arcsin y ≤ y + y ^ 3 := by
  have hy1 : y ≤ 1 := by linarith
  have ht0 : 0 < Real.arcsin y := Real.arcsin_pos.mpr h0
  have hsin : Real.sin (Real.arcsin y) = y := Real.sin_arcsin (by linarith) hy1
  constructor
  · have := Real.sin_lt ht0
    rw [hsin] at this
    linarith
  · have ht1 : Real.arcsin y ≤ 1 := by
      by_contra hgt
      push_neg at hgt
      have hmem1 : (1 : ℝ) ∈ Set.Icc (-(Real.pi / 2)) (Real.pi / 2) := by
        constructor <;> nlinarith [Real.pi_gt_three]
      have hmemt : Real.arcsin y ∈ Set.Icc (-(Real.pi / 2)) (Real.pi / 2) :=
        ⟨by linarith [Real.neg_pi_div_two_le_arcsin y], Real.arcsin_le_pi_div_two y⟩
      have hlt := Real.strictMonoOn_sin hmem1 hmemt hgt
      rw [hsin] at hlt
      have h34 : (3 : ℝ) / 4 < Real.sin 1 := by
        have := Real.sin_gt_sub_cube (by norm_num : (0 : ℝ) < 1) (le_refl 1)
        nlinarith
      have hs1 : Real.sin 1 < 1 / 1000 := lt_of_lt_of_le hlt hy
      linarith
    have hcube := Real.sin_gt_sub_cube ht0 ht1
    rw [hsin] at hcube
    have ht2 : Real.arcsin y ^ 2 ≤ 1 := by nlinarith
    have htc : Real.arcsin y ^ 3 ≤ Real.arcsin y := by nlinarith
    have ht43 : Real.arcsin y ≤ 4 / 3 * y := by linarith
    have ht3 : Real.arcsin y ^ 3 ≤ (4 / 3 * y) ^ 3 :=
      pow_le_pow_left (le_of_lt ht0) ht43 3
    nlinarith [ht3, hcube, pow_pos h0 3]

theorem cos_mul_cos (x y : ℝ) :
    Real.cos x * Real.cos y = (Real.cos (x - y) + Real.cos (x + y)) / 2 := by
  rw [Real.cos_sub, Real.cos_add]; ring

theorem cos_pi_div_two_add' (x : ℝ) :
    Real.cos (Real.pi / 2 + x) = -Real.sin x := by
  rw [Real.cos_add, Real.cos_pi_div_two, Real.sin_pi_div_two]; ring

theorem haversine_LE_eq :
    haversine_km louvreLoc eiffelLoc =
      12742 * Real.arcsin (Real.sqrt
        (Real.sin (11 * Real.pi / 1800000) ^ 2 +
         Real.cos (244303 * Real.pi / 900000) *
           Real.cos (61073 * Real.pi / 225000) *
           Real.sin (431 * Real.pi / 3600000) ^ 2)) := by
  simp only [haversine_km, radians, louvreLoc, eiffelLoc]
  have h1 : ((48.8584 - 48.8606 : ℚ) : ℝ) * Real.pi / 180 / 2 =
      -(11 * Real.pi / 1800000) := by
    push_cast
    ring_nf
  have h2 : ((2.2945 - 2.3376 : ℚ) : ℝ) * Real.pi / 180 / 2 =
      -(431 * Real.pi / 3600000) := by
    push_cast
    ring_nf
  have h3 : ((48.8606 : ℚ) : ℝ) * Real.pi / 180 = 244303 * Real.pi / 900000 := by
    push_cast
    ring_nf
  have h4 : ((48.8584 : ℚ) : ℝ) * Real.pi / 180 = 61073 * Real.pi / 225000 := by
    push_cast
    ring_nf
  rw [h1, h2, h3, h4, Real.sin_neg, Real.sin_neg, neg_sq, neg_sq]
  norm_num

theorem sa_bounds :
    (134297 / 10 ^ 6 : ℝ) ≤ Real.sin (7719 * Real.pi / 180000) ∧
    Real.sin (7719 * Real.pi / 180000) ≤ 134332 / 10 ^ 6 := by
  have hpi1 : (3.141592 : ℝ) < Real.pi := Real.pi_gt_d6
  have hpi2 : Real.pi < 3.141593 := Real.pi_lt_d6
  have hl : (7719 * 3.141592 / 180000 : ℝ) ≤ 7719 * Real.pi / 180000 := by linarith
  have hu : 7719 * Real.pi / 180000 ≤ (7719 * 3.141593 / 180000 : ℝ) := by linarith
  have hp : (0 : ℝ) < 7719 * Real.pi / 180000 := by positivity
  have h1 : 7719 * Real.pi / 180000 ≤ 1 := by linarith
  have habs : |7719 * Real.pi / 180000| ≤ 1 := by rw [abs_of_pos hp]; exact h1
  have hsb := Real.sin_bound habs
  rw [abs_of_pos hp] at hsb
  have hsplit := abs_le.mp hsb
  have hc3u : (7719 * Real.pi / 180000) ^ 3 ≤ (7719 * 3.141593 / 180000 : ℝ) ^ 3 :=
    pow_le_pow_left (le_of_lt hp) hu 3
  have hc3l : (7719 * 3.141592 / 180000 : ℝ) ^ 3 ≤ (7719 * Real.pi / 180000) ^ 3 :=
    pow_le_pow_left (by norm_num) hl 3
  have hc4 : (7719 * Real.pi / 180000) ^ 4 ≤ (7719 * 3.141593 / 180000 : ℝ) ^ 4 :=
    pow_le_pow_left (le_of_lt hp) hu 4
  constructor
  · have hq : (134297 / 10 ^ 6 : ℝ) ≤ 7719 * 3.141592 / 180000 -
        (7719 * 3.141593 / 180000 : ℝ) ^ 3 / 6 -
        (7719 * 3.141593 / 180000 : ℝ) ^ 4 * (5 / 96) := by norm_num
    linarith [hsplit.1]
  · have hq : (7719 * 3.141593 / 180000 : ℝ) -
        (7719 * 3.141592 / 180000 : ℝ) ^ 3 / 6 +
        (7719 * 3.141593 / 180000 : ℝ) ^ 4 * (5 / 96) ≤ 134332 / 10 ^ 6 := by norm_num
    linarith [hsplit.2]

theorem cosd_bounds :
    (999999999 / 10 ^ 9 : ℝ) ≤ Real.cos (11 * Real.pi / 900000) ∧
    Real.cos (11 * Real.pi / 900000) ≤ 1 := by
  have hpi1 : (3.141592 : ℝ) < Real.pi := Real.pi_gt_d6
  have hpi2 : Real.pi < 3.141593 := Real.pi_lt_d6
  have hu : 11 * Real.pi / 900000 ≤ (11 * 3.141593 / 900000 : ℝ) := by linarith
  have hp : (0 : ℝ) < 11 * Real.pi / 900000 := by positivity
  have h1 : 11 * Real.pi / 900000 ≤ 1 := by linarith
  have habs : |11 * Real.pi / 900000| ≤ 1 := by rw [abs_of_pos hp]; exact h1
  have hcb := Real.cos_bound habs
  rw [abs_of_pos hp] at hcb
  have hsplit := abs_le.mp hcb
  have hc2 : (11 * Real.pi / 900000) ^ 2 ≤ (11 * 3.141593 / 900000 : ℝ) ^ 2 :=
    pow_le_pow_left (le_of_lt hp) hu 2
  have hc4 : (11 * Real.pi / 900000) ^ 4 ≤ (11 * 3.141593 / 900000 : ℝ) ^ 4 :=
    pow_le_pow_left (le_of_lt hp) hu 4
  refine ⟨?_, Real.cos_le_one _⟩
  have hq : (999999999 / 10 ^ 9 : ℝ) ≤ 1 - (11 * 3.141593 / 900000 : ℝ) ^ 2 / 2 -
      (11 * 3.141593 / 900000 : ℝ) ^ 4 * (5 / 96) := by norm_num
  linarith [hsplit.1]

theorem Cprod_bounds :
    ((999999999 / 10 ^ 9 - 134332 / 10 ^ 6) / 2 : ℝ) ≤
      Real.cos (244303 * Real.pi / 900000) * Real.cos (61073 * Real.pi / 225000) ∧
    Real.cos (244303 * Real.pi / 900000) * Real.cos (61073 * Real.pi / 225000) ≤
      ((1 - 134297 / 10 ^ 6) / 2 : ℝ) := by
  have hid : Real.cos (244303 * Real.pi / 900000) * Real.cos (61073 * Real.pi / 225000) =
      (Real.cos (11 * Real.pi / 900000) - Real.sin (7719 * Real.pi / 180000)) / 2 := by
    rw [cos_mul_cos,
      show (244303 * Real.pi / 900000 - 61073 * Real.pi / 225000) =
        11 * Real.pi / 900000 by ring,
      show (244303 * Real.pi / 900000 + 61073 * Real.pi / 225000) =
        Real.pi / 2 + 7719 * Real.pi / 180000 by ring,
      cos_pi_div_two_add']
    ring
  rw [hid]
  obtain ⟨hsa1, hsa2⟩ := sa_bounds
  obtain ⟨hcd1, hcd2⟩ := cosd_bounds
  constructor <;> linarith

theorem H_bounds :
    ((2481922 / 10 ^ 10 : ℝ)) ^ 2 ≤
      Real.sin (11 * Real.pi / 1800000) ^ 2 +
        Real.cos (244303 * Real.pi / 900000) * Real.cos (61073 * Real.pi / 225000) *
          Real.sin (431 * Real.pi / 3600000) ^ 2 ∧
    Real.sin (11 * Real.pi / 1800000) ^ 2 +
        Real.cos (244303 * Real.pi / 900000) * Real.cos (61073 * Real.pi / 225000) *
          Real.sin (431 * Real.pi / 3600000) ^ 2 ≤
      ((2482004 / 10 ^ 10 : ℝ)) ^ 2 := by
  have hpi1 : (3.141592 : ℝ) < Real.pi := Real.pi_gt_d6
  have hpi2 : Real.pi < 3.141593 := Real.pi_lt_d6
  have hx1p : (0 : ℝ) < 11 * Real.pi / 1800000 := by positivity
  have hs1 : (36858 / 10 ^ 14 : ℝ) ≤ Real.sin (11 * Real.pi / 1800000) ^ 2 ∧
      Real.sin (11 * Real.pi / 1800000) ^ 2 ≤ (36859 / 10 ^ 14 : ℝ) := by
    refine sin_sq_enclosure hx1p (by linarith)
      (show (11 * 3.141592 / 1800000 : ℝ) ≤ _ by linarith)
      (show _ ≤ (11 * 3.141593 / 1800000 : ℝ) by linarith) ?_ ?_ ?_ <;> norm_num
  have hx2p : (0 : ℝ) < 431 * Real.pi / 3600000 := by positivity
  have hs2 : (14146491 / 10 ^ 14 : ℝ) ≤ Real.sin (431 * Real.pi / 3600000) ^ 2 ∧
      Real.sin (431 * Real.pi / 3600000) ^ 2 ≤ (14146513 / 10 ^ 14 : ℝ) := by
    refine sin_sq_enclosure hx2p (by linarith)
      (show (431 * 3.141592 / 3600000 : ℝ) ≤ _ by linarith)
      (show _ ≤ (431 * 3.141593 / 3600000 : ℝ) by linarith) ?_ ?_ ?_ <;> norm_num
  obtain ⟨hC1, hC2⟩ := Cprod_bounds
  have hC0 : (0 : ℝ) ≤
      Real.cos (244303 * Real.pi / 900000) * Real.cos (61073 * Real.pi / 225000) := by
    have : (0 : ℝ) ≤ (999999999 / 10 ^ 9 - 134332 / 10 ^ 6) / 2 := by norm_num
    linarith
  have hprod_l : ((999999999 / 10 ^ 9 - 134332 / 10 ^ 6) / 2 : ℝ) *
      (14146491 / 10 ^ 14) ≤
      Real.cos (244303 * Real.pi / 900000) * Real.cos (61073 * Real.pi / 225000) *
        Real.sin (431 * Real.pi / 3600000) ^ 2 :=
    mul_le_mul hC1 hs2.1 (by norm_num) hC0
  have hprod_u : Real.cos (244303 * Real.pi / 900000) *
      Real.cos (61073 * Real.pi / 225000) * Real.sin (431 * Real.pi / 3600000) ^ 2 ≤
      ((1 - 134297 / 10 ^ 6) / 2 : ℝ) * (14146513 / 10 ^ 14) :=
    mul_le_mul hC2 hs2.2 (sq_nonneg _) (by norm_num)
  constructor
  · have hq : ((2481922 / 10 ^ 10 : ℝ)) ^ 2 ≤ (36858 / 10 ^ 14 : ℝ) +
        ((999999999 / 10 ^ 9 - 134332 / 10 ^ 6) / 2 : ℝ) * (14146491 / 10 ^ 14) := by
      norm_num
    linarith [hs1.1]
  · have hq : (36859 / 10 ^ 14 : ℝ) +
        ((1 - 134297 / 10 ^ 6) / 2 : ℝ) * (14146513 / 10 ^ 14) ≤
        ((2482004 / 10 ^ 10 : ℝ)) ^ 2 := by
      norm_num
    linarith [hs1.2]

theorem km_bounds :
    3.162 ≤ haversine_km louvreLoc eiffelLoc ∧
    haversine_km louvreLoc eiffelLoc ≤ 3.163 := by
  rw [haversine_LE_eq]
  obtain ⟨hH1, hH2⟩ := H_bounds
  have hH0 : (0 : ℝ) ≤ Real.sin (11 * Real.pi / 1800000) ^ 2 +
      Real.cos (244303 * Real.pi / 900000) * Real.cos (61073 * Real.pi / 225000) *
        Real.sin (431 * Real.pi / 3600000) ^ 2 := le_trans (sq_nonneg _) hH1
  have hsq_l : (2481922 / 10 ^ 10 : ℝ) ≤ Real.sqrt
      (Real.sin (11 * Real.pi / 1800000) ^ 2 +
       Real.cos (244303 * Real.pi / 900000) * Real.cos (61073 * Real.pi / 225000) *
         Real.sin (431 * Real.pi / 3600000) ^ 2) := by
    rw [show (2481922 / 10 ^ 10 : ℝ) =
      Real.sqrt ((2481922 / 10 ^ 10 : ℝ) ^ 2) from (Real.sqrt_sq (by norm_num)).symm]
    exact Real.sqrt_le_sqrt hH1
  have hsq_u : Real.sqrt
      (Real.sin (11 * Real.pi / 1800000) ^ 2 +
       Real.cos (244303 * Real.pi / 900000) * Real.cos (61073 * Real.pi / 225000) *
         Real.sin (431 * Real.pi / 3600000) ^ 2) ≤ (2482004 / 10 ^ 10 : ℝ) := by
    rw [show (2482004 / 10 ^ 10 : ℝ) =
      Real.sqrt ((2482004 / 10 ^ 10 : ℝ) ^ 2) from (Real.sqrt_sq (by norm_num)).symm]
    exact Real.sqrt_le_sqrt hH2
  have hsqp : (0 : ℝ) < Real.sqrt
      (Real.sin (11 * Real.pi / 1800000) ^ 2 +
       Real.cos (244303 * Real.pi / 900000) * Real.cos (61073 * Real.pi / 225000) *
         Real.sin (431 * Real.pi / 3600000) ^ 2) :=
    lt_of_lt_of_le (by norm_num) hsq_l
  have hsq1000 : Real.sqrt
      (Real.sin (11 * Real.pi / 1800000) ^ 2 +
       Real.cos (244303 * Real.pi / 900000) * Real.cos (61073 * Real.pi / 225000) *
         Real.sin (431 * Real.pi / 3600000) ^ 2) ≤ 1 / 1000 := by
    have : (2482004 / 10 ^ 10 : ℝ) ≤ 1 / 1000 := by norm_num
    linarith
  obtain ⟨hta, htb⟩ := arcsin_le_add_cube hsqp hsq1000
  have hcube : Real.sqrt
      (Real.sin (11 * Real.pi / 1800000) ^ 2 +
       Real.cos (244303 * Real.pi / 900000) * Real.cos (61073 * Real.pi / 225000) *
         Real.sin (431 * Real.pi / 3600000) ^ 2) ^ 3 ≤ (2482004 / 10 ^ 10 : ℝ) ^ 3 :=
    pow_le_pow_left (Real.sqrt_nonneg _) hsq_u 3
  constructor
  · have hq : (3.162 : ℝ) ≤ 12742 * (2481922 / 10 ^ 10) := by norm_num
    nlinarith [hta, hsq_l]
  · have hq : (12742 : ℝ) * ((2482004 / 10 ^ 10) + (2482004 / 10 ^ 10) ^ 3) ≤ 3.163 := by
      norm_num
    nlinarith [htb, hsq_u, hcube]

theorem round2_km : round2 (haversine_km louvreLoc eiffelLoc) = 316 := by
  obtain ⟨h1, h2⟩ := km_bounds
  rw [round2, Int.floor_eq_iff]
  constructor
  · push_cast; linarith
  · push_cast; linarith

theorem fmt2_km : fmt2 (haversine_km louvreLoc eiffelLoc) = "3.16" := by
  simp only [fmt2, round2_km]
  rfl

theorem report_eq :
    reportString louvreLoc eiffelLoc =
      "Louvre Museum → Eiffel Tower: 3.16 km" ++
        (" (" ++ fmt2 (haversine_km louvreLoc eiffelLoc * 0.621371) ++
         " miles). Walking ~" ++ toString ⌊haversine_km louvreLoc eiffelLoc * 12⌋ ++
         " min, Metro ~" ++ toString ⌊haversine_km louvreLoc eiffelLoc * 3 + 5⌋ ++
         " min.") := by
  simp only [reportString, numericTail, fmt2_km]
  rfl

/-- C2 counterexample: on the question of the spec's example, `answer` returns
the fixed-pair report, whose kilometre figure is 3.16, so the returned string
does not begin with `"Louvre Museum → Eiffel Tower: 3.21 km"`. -/
theorem C2_counterexample :
    ¬ strStarts "Louvre Museum → Eiffel Tower: 3.21 km"
        (answer gw0 convInit "How far is the Louvre from the Eiffel Tower?").reply := by
  have hcl : classify "How far is the Louvre from the Eiffel Tower?" = "distance" := by
    decide
  have hans : answer gw0 convInit "How far is the Louvre from the Eiffel Tower?" =
      ⟨reportString louvreLoc eiffelLoc, convInit, []⟩ :=
    answer_det _ _ _ _ (detAnswer_distance _ hcl)
  rw [hans]
  rintro ⟨r, hr⟩
  rw [report_eq] at hr
  have hd := congrArg String.data hr
  rw [data_append, data_append] at hd
  have hlen : ("Louvre Museum → Eiffel Tower: 3.16 km" : String).data.length =
      ("Louvre Museum → Eiffel Tower: 3.21 km" : String).data.length := by decide
  obtain ⟨h1, -⟩ := List.append_inj hd hlen
  exact absurd h1 (by decide)

/-- C2 (amended): `answer` on `"How far is the Louvre from the Eiffel Tower?"`
returns a string beginning `"Louvre Museum → Eiffel Tower: 3.16 km"` (the
haversine distance of the two fixed coordinate pairs rounded to two
decimals), does not invoke the gateway, and leaves the conversation
unchanged. -/
theorem C2_distance_answer :
    ∀ (gw : List Msg → String) (conv : List Msg),
      answer gw conv "How far is the Louvre from the Eiffel Tower?" =
        ⟨reportString louvreLoc eiffelLoc, conv, []⟩ ∧
      strStarts "Louvre Museum → Eiffel Tower: 3.16 km"
        (reportString louvreLoc eiffelLoc) := by
  intro gw conv
  have hcl : classify "How far is the Louvre from the Eiffel Tower?" = "distance" := by
    decide
  exact ⟨answer_det _ _ _ _ (detAnswer_distance _ hcl), ⟨_, report_eq⟩⟩

theorem classify_spec_vectors :
    classify "Hello there!" = "greet" ∧
    classify "How far is it in kilometers?" = "distance" ∧
    classify "Where is the Eiffel Tower?" = "where" ∧
    classify "What are the must-see works at the Louvre?" = "mustsee" ∧
    classify "sushi" = "general" := by
  refine ⟨?_, ?_, ?_, ?_, ?_⟩ <;> decide

theorem find_vectors :
    find "louvre museum" = some louvreLoc ∧ find "EIFFEL TOWER" = some eiffelLoc :=
  ⟨rfl, rfl⟩

end Paris
